import Mathlib

/-!
# AITradeGuard — verification of the decision-and-settlement pipeline spec

Shallow embedding of the four backend modules of the AITradeGuard repository:

* `backend/config/app_config.py` — `AppConfig` (singleton config snapshot)
* `backend/trading/bybit_connector.py` — `BybitTrader` (exchange adapter)
* `backend/blockchain/blockchain_integration.py` — `BlockchainVerifier` (ledger adapter)
* `backend/ai_models/sentiment_analyzer.py` — `SentimentAnalyzer` (signal source)

External clients (ccxt, web3, yfinance, the TensorFlow model, `os.getenv`) are
modelled by explicit outcome parameters: every call that can raise is given an
`Except ExtErr _` outcome, and the Python `try/except` blocks are translated as
pattern matches on that outcome.  Python floats are modelled as `ℚ`, dicts with
heterogeneous values as association lists over an inductive `Val`.
-/

namespace AITradeGuard

/-- Exceptions raised by the external clients or by dictionary access. -/
inductive ExtErr where
  | networkError
  | rateLimited
  | keyError (k : String)
  | notFitted
  | rpcError
  deriving DecidableEq, Repr

/-- A Python value as it appears in the repository's dictionaries. -/
inductive Val where
  | vNone
  | str (s : String)
  | num (q : ℚ)
  | intVal (n : ℤ)
  | boolean (b : Bool)
  | strList (l : List String)
  deriving DecidableEq, Repr

/-- A Python dict with string keys, modelled as an association list. -/
abbrev Dict := List (String × Val)

/-- Python truthiness of a `Val` (`bool(v)`): `None`, `""`, `0` and `[]` are falsy. -/
def Val.truthy : Val → Bool
  | .vNone => false
  | .str s => s != ""
  | .num q => q != 0
  | .intVal n => n != 0
  | .boolean b => b
  | .strList l => !l.isEmpty

/-! ## backend/config/app_config.py -/

/-- `os.getenv(key, default)`: the environment is a partial map from names to strings. -/
def getenvD (env : String → Option String) (k d : String) : String :=
  (env k).getD d

/-- `os.getenv(key)` with no default, stored into the config dict as-is
(`None` when the variable is absent). -/
def getenvVal (env : String → Option String) (k : String) : Val :=
  match env k with
  | some s => .str s
  | none => .vNone

/-- `AppConfig._load_config`: the configuration dictionary built from environment
variables.  `parseFloat`/`parseInt` abstract Python's `float()`/`int()` string
parsing, which no claim depends on. -/
def load_config (env : String → Option String)
    (parseFloat : String → ℚ) (parseInt : String → ℤ) : Dict :=
  [("ENVIRONMENT", .str (getenvD env "APP_ENV" "development")),
   ("DEBUG_MODE", .boolean ((getenvD env "DEBUG" "False").toLower == "true")),
   ("TRADING_SYMBOLS", .strList ((getenvD env "TRADING_SYMBOLS" "BTC/USDT,ETH/USDT").splitOn ",")),
   ("MAX_TRADE_AMOUNT", .num (parseFloat (getenvD env "MAX_TRADE_AMOUNT" "100"))),
   ("BYBIT_API_KEY", getenvVal env "BYBIT_API_KEY"),
   ("BYBIT_API_SECRET", getenvVal env "BYBIT_API_SECRET"),
   ("BLOCKCHAIN_PROVIDER", getenvVal env "BLOCKCHAIN_PROVIDER_URL"),
   ("TRADE_CONTRACT_ADDRESS", getenvVal env "TRADE_VERIFICATION_CONTRACT"),
   ("MODEL_TRAINING_FREQUENCY", .intVal (parseInt (getenvD env "MODEL_TRAIN_FREQ" "7"))),
   ("SENTIMENT_SYMBOLS", .strList ((getenvD env "SENTIMENT_SYMBOLS" "BTC,ETH").splitOn ",")),
   ("MAX_CONSECUTIVE_TRADES", .intVal (parseInt (getenvD env "MAX_CONSECUTIVE_TRADES" "5"))),
   ("RISK_THRESHOLD", .num (parseFloat (getenvD env "RISK_THRESHOLD" "0.5")))]

/-- `AppConfig.get_config(key)`: `self.config.get(key, None)` (the claims only use
the one-argument form, whose default is `None`). -/
def get_config (cfg : Dict) (k : String) : Val :=
  (List.lookup k cfg).getD .vNone

/-- `AppConfig.is_production`: the `ENVIRONMENT` entry equals `"production"`. -/
def is_production (cfg : Dict) : Bool :=
  get_config cfg "ENVIRONMENT" == .str "production"

/-- The three keys `AppConfig.validate_config` treats as critical. -/
def critical_keys : List String :=
  ["BYBIT_API_KEY", "BYBIT_API_SECRET", "BLOCKCHAIN_PROVIDER"]

/-- `AppConfig.validate_config`: iterates over the critical keys and returns `False`
as soon as one value is falsy (absent or empty), `True` otherwise. -/
def validate_config (cfg : Dict) : Bool :=
  critical_keys.all fun k => (get_config cfg k).truthy

/-- `main()` of `app_config.py`: proceeds to print/use the trading symbols only when
`validate_config` returns `True`; otherwise reports invalid configuration and stops. -/
def config_main_proceeds (cfg : Dict) : Bool :=
  validate_config cfg

/-- A constructed `AppConfig` object: its loaded `config` dict and the
`initialized` flag set by `__init__`. -/
structure AppConfigInst where
  config : Dict
  initialized : Bool
  deriving DecidableEq, Repr

/-- The interpreter state the singleton lives in: the class attribute
`AppConfig._instance` and a count of `_load_config` invocations. -/
structure PyState where
  instanceSlot : Option AppConfigInst
  loadCount : Nat
  deriving Repr

/-- `AppConfig()` — `__new__` followed by `__init__`: reuses `_instance` when set,
and `__init__` reloads only when the instance is not yet `initialized`. -/
def appConfigNew (env : String → Option String)
    (parseFloat : String → ℚ) (parseInt : String → ℤ)
    (st : PyState) : AppConfigInst × PyState :=
  match st.instanceSlot with
  | some inst =>
      if inst.initialized then (inst, st)
      else
        let inst' : AppConfigInst := ⟨load_config env parseFloat parseInt, true⟩
        (inst', ⟨some inst', st.loadCount + 1⟩)
  | none =>
      let inst' : AppConfigInst := ⟨load_config env parseFloat parseInt, true⟩
      (inst', ⟨some inst', st.loadCount + 1⟩)

/-- Method form of `get_config`: the body only reads `self.config`, so the returned
object is the receiver unchanged. -/
def get_config_m (self : AppConfigInst) (k : String) : Val × AppConfigInst :=
  (get_config self.config k, self)

/-- Method form of `is_production`. -/
def is_production_m (self : AppConfigInst) : Bool × AppConfigInst :=
  (is_production self.config, self)

/-- Method form of `validate_config`. -/
def validate_config_m (self : AppConfigInst) : Bool × AppConfigInst :=
  (validate_config self.config, self)

/-- A call to one of the three public `AppConfig` operations. -/
inductive ConfigOp where
  | getCfg (k : String)
  | isProd
  | validate
  deriving DecidableEq, Repr

/-- Run one public operation on the instance, returning the (possibly mutated)
receiver. -/
def runConfigOp (self : AppConfigInst) : ConfigOp → AppConfigInst
  | .getCfg k => (get_config_m self k).2
  | .isProd => (is_production_m self).2
  | .validate => (validate_config_m self).2

/-- Run a sequence of public operations. -/
def runConfigOps (self : AppConfigInst) : List ConfigOp → AppConfigInst
  | [] => self
  | op :: ops => runConfigOps (runConfigOp self op) ops

/-! ## backend/trading/bybit_connector.py -/

/-- The USDT balance triple read from `exchange.fetch_balance()`. -/
structure BalanceInfo where
  total : ℚ
  free : ℚ
  used : ℚ
  deriving DecidableEq, Repr

/-- `BybitTrader.get_account_balance`: the USDT totals on success; on any raised
exception the error is logged and the empty dict `{}` returned. -/
def get_account_balance (fetchResult : Except ExtErr BalanceInfo) : Dict :=
  match fetchResult with
  | .ok b => [("total", .num b.total), ("free", .num b.free), ("used", .num b.used)]
  | .error _ => []

/-- An order held by the exchange; `id` is the exchange-assigned order reference. -/
structure Order where
  id : Nat
  symbol : String
  side : String
  amount : ℚ
  deriving DecidableEq, Repr

/-- The exchange as seen through the ccxt client: the orders created so far, and
whether the next call raises.  `create_market_order` passes no client-order-id or
idempotency field to the client, so each successful call submits a fresh market
order and the exchange assigns it the next reference. -/
structure ExchangeState where
  orders : List Order
  failing : Bool
  deriving DecidableEq, Repr

/-- `BybitTrader.create_market_order`: on success the new order's details are
returned; on a raised exception the error is logged and `{}` returned. -/
def create_market_order (symbol side : String) (amount : ℚ)
    (st : ExchangeState) : Dict × ExchangeState :=
  if st.failing then ([], st)
  else
    let o : Order := ⟨st.orders.length, symbol, side, amount⟩
    ([("id", .intVal (o.id : ℤ)), ("symbol", .str symbol),
      ("side", .str side), ("amount", .num amount)],
     { st with orders := st.orders ++ [o] })

/-- A ticker returned by `exchange.fetch_ticker`; `last` is the last traded price. -/
structure Ticker where
  last : ℚ
  deriving DecidableEq, Repr

/-- `BybitTrader.get_current_price`: `ticker['last']` on success, `0.0` when the
fetch raises. -/
def get_current_price (fetchResult : Except ExtErr Ticker) : ℚ :=
  match fetchResult with
  | .ok t => t.last
  | .error _ => 0

/-! ## backend/blockchain/blockchain_integration.py -/

/-- Outcomes of the web3 calls made inside `record_trade`, each of which can raise:
contract construction plus `build_transaction`, `sign_transaction`,
`send_raw_transaction`, and `wait_for_transaction_receipt` (whose `ok` value is
the receipt's `status` field; a receipt without that field is a `keyError`). -/
structure Web3Env where
  buildOutcome : Except ExtErr Unit
  signOutcome : Except ExtErr Unit
  sendOutcome : Except ExtErr Unit
  receiptStatus : Except ExtErr ℤ
  deriving Repr

/-- The ledger as seen through the web3 client: the transaction hashes accepted so
far (a fresh hash is assigned per sent transaction — the source supplies no
idempotency field in the transaction it builds) and the outcomes of the next
call's web3 steps. -/
structure ChainState where
  txs : List Nat
  env : Web3Env
  deriving Repr

/-- `trade_details[key]`: raises `KeyError` when absent. -/
def dictItem (d : Dict) (k : String) : Except ExtErr Val :=
  match List.lookup k d with
  | some v => .ok v
  | none => .error (.keyError k)

/-- `BlockchainVerifier.record_trade`: builds, signs and sends a `recordTrade`
transaction from `trade_details['symbol'/'amount'/'price'/'timestamp']`, waits for
the receipt, and returns `receipt['status'] == 1`; any exception anywhere in the
body is caught, logged, and `False` returned.  Once `send_raw_transaction`
succeeds the transaction is on chain even when a later step fails. -/
def record_trade (trade_details : Dict) (st : ChainState) : Bool × ChainState :=
  match dictItem trade_details "symbol", dictItem trade_details "amount",
        dictItem trade_details "price", dictItem trade_details "timestamp" with
  | .ok _, .ok _, .ok _, .ok _ =>
    match st.env.buildOutcome with
    | .error _ => (false, st)
    | .ok _ =>
      match st.env.signOutcome with
      | .error _ => (false, st)
      | .ok _ =>
        match st.env.sendOutcome with
        | .error _ => (false, st)
        | .ok _ =>
          let st' := { st with txs := st.txs ++ [st.txs.length] }
          match st.env.receiptStatus with
          | .error _ => (false, st')
          | .ok s => (s == 1, st')
  | _, _, _, _ => (false, st)

/-- A trade record returned by the contract's `getTrade` call. -/
structure TradeRecord where
  symbol : String
  amount : ℚ
  price : ℚ
  timestamp : ℤ
  deriving DecidableEq, Repr

/-- `BlockchainVerifier.verify_trade`: on success returns a dict with exactly the
record's four detail fields; on any raised exception returns `{}`. -/
def verify_trade (callResult : Except ExtErr TradeRecord) : Dict :=
  match callResult with
  | .ok r =>
      [("symbol", .str r.symbol), ("amount", .num r.amount),
       ("price", .num r.price), ("timestamp", .intVal r.timestamp)]
  | .error _ => []

/-! ## backend/ai_models/sentiment_analyzer.py -/

/-- A fetched market-data frame, reduced to what `analyze_sentiment` consumes:
whether the frame is empty, and the last row of engineered features otherwise. -/
structure MarketData where
  empty : Bool
  lastFeatures : List ℚ
  deriving DecidableEq, Repr

/-- `SentimentAnalyzer.fetch_market_data`: the fetched frame on success; when the
underlying yfinance call raises, the error is logged and an empty `DataFrame`
returned. -/
def fetch_market_data (fetchResult : Except ExtErr MarketData) : MarketData :=
  match fetchResult with
  | .ok d => d
  | .error _ => ⟨true, []⟩

/-- `SentimentAnalyzer.analyze_sentiment`.  If the fetched frame is empty the
neutral score `0.5` is returned at once, before the scaler or the model is
touched.  Otherwise `scaler.transform` runs (`scalerOutcome`; it raises when the
scaler is unfitted) and the model predicts.  The model's output layer is a
sigmoid (`build_sentiment_model`), so the prediction is `1 / (1 + exp (-z))` for
the pre-activation `z`; it is represented here by `expNegZ`, standing for
`exp (-z)`, about which only positivity ever holds. -/
def analyze_sentiment (fetchResult : Except ExtErr MarketData)
    (scalerOutcome : Except ExtErr (List ℚ)) (expNegZ : ℚ) : Except ExtErr ℚ :=
  let data := fetch_market_data fetchResult
  if data.empty then .ok (1 / 2)
  else
    match scalerOutcome with
    | .error e => .error e
    | .ok _ => .ok (1 / (1 + expNegZ))

/-! ## RiskGate (spec §4.1) -/

/-- A trade decision of the RiskGate. -/
inductive Decision where
  | buy
  | sell
  | hold
  deriving DecidableEq, Repr

/-- Modelled from the spec: the repository has no mapping from a sentiment score to
a discrete trade decision and no buy/sell thresholds (spec §9 records this as an
open question about the source).  Following spec §4.1: `score >= buyThreshold` →
Buy, `score <= sellThreshold` → Sell, otherwise Hold. -/
def riskGateDecide (buyThreshold sellThreshold score : ℚ) : Decision :=
  if score ≥ buyThreshold then .buy
  else if score ≤ sellThreshold then .sell
  else .hold

/-! ## Helper definitions for the statements -/

/-- Whether an external-call outcome succeeded (no exception raised). -/
def isOkE {α : Type} : Except ExtErr α → Bool
  | .ok _ => true
  | .error _ => false

/-- A required environment value is missing when the variable is absent or set to
the empty string (both are falsy for `os.getenv`'s result in Python). -/
def envMissing (env : String → Option String) (k : String) : Prop :=
  env k = none ∨ env k = some ""

/-- A `Web3Env` in which every web3 step succeeds and the receipt status is 1. -/
def allOkEnv : Web3Env :=
  ⟨.ok (), .ok (), .ok (), .ok 1⟩

/-- A well-formed `trade_details` dict holding the four fields `record_trade` reads. -/
def mkTradeDetails (symbol : String) (amount price : ℚ) (timestamp : ℤ) : Dict :=
  [("symbol", .str symbol), ("amount", .num amount),
   ("price", .num price), ("timestamp", .intVal timestamp)]

/-! ## Helper lemmas -/

theorem record_trade_build_error (d : Dict) (txs : List Nat) (w : Web3Env) (e : ExtErr) :
    (record_trade d ⟨txs, { w with buildOutcome := .error e }⟩).1 = false := by
  rcases h1 : dictItem d "symbol" with e1 | v1 <;>
  rcases h2 : dictItem d "amount" with e2 | v2 <;>
  rcases h3 : dictItem d "price" with e3 | v3 <;>
  rcases h4 : dictItem d "timestamp" with e4 | v4 <;>
    simp [record_trade, h1, h2, h3, h4]

theorem record_trade_allOk (d : Dict) (txs : List Nat)
    (h1 : isOkE (dictItem d "symbol") = true) (h2 : isOkE (dictItem d "amount") = true)
    (h3 : isOkE (dictItem d "price") = true) (h4 : isOkE (dictItem d "timestamp") = true) :
    record_trade d ⟨txs, allOkEnv⟩ = (true, ⟨txs ++ [txs.length], allOkEnv⟩) := by
  rcases k1 : dictItem d "symbol" with e1 | v1
  · rw [k1] at h1; simp [isOkE] at h1
  rcases k2 : dictItem d "amount" with e2 | v2
  · rw [k2] at h2; simp [isOkE] at h2
  rcases k3 : dictItem d "price" with e3 | v3
  · rw [k3] at h3; simp [isOkE] at h3
  rcases k4 : dictItem d "timestamp" with e4 | v4
  · rw [k4] at h4; simp [isOkE] at h4
  simp [record_trade, k1, k2, k3, k4, allOkEnv]

/-! ## Claims -/

/-- C4: `validate_config` reports invalid exactly when at least one of the three
critical credential/endpoint values (`BYBIT_API_KEY`, `BYBIT_API_SECRET`,
`BLOCKCHAIN_PROVIDER`, the last loaded from `BLOCKCHAIN_PROVIDER_URL`) is missing
from the environment, and `main` proceeds past validation exactly when
`validate_config` passes. -/
theorem validate_config_invalid_iff_missing (env : String → Option String)
    (parseFloat : String → ℚ) (parseInt : String → ℤ) :
    (validate_config (load_config env parseFloat parseInt) = false ↔
      (envMissing env "BYBIT_API_KEY" ∨ envMissing env "BYBIT_API_SECRET" ∨
       envMissing env "BLOCKCHAIN_PROVIDER_URL")) ∧
    config_main_proceeds (load_config env parseFloat parseInt) =
      validate_config (load_config env parseFloat parseInt) := by
  refine ⟨?_, rfl⟩
  have hv : validate_config (load_config env parseFloat parseInt) =
      ((getenvVal env "BYBIT_API_KEY").truthy &&
        ((getenvVal env "BYBIT_API_SECRET").truthy &&
          ((getenvVal env "BLOCKCHAIN_PROVIDER_URL").truthy && true))) := rfl
  rw [hv]
  unfold envMissing
  rcases hA : env "BYBIT_API_KEY" with _ | a <;>
  rcases hB : env "BYBIT_API_SECRET" with _ | b <;>
  rcases hC : env "BLOCKCHAIN_PROVIDER_URL" with _ | c <;>
    (simp [getenvVal, Val.truthy, hA, hB, hC, bne]; try tauto)

/-- C8: the configuration is a singleton snapshot — reconstructing `AppConfig` when
an initialized instance exists returns that instance with the interpreter state
unchanged (no reload); after any construction, a second construction returns the
same instance and performs no further `_load_config` call; and no sequence of the
public operations (`get_config`, `is_production`, `validate_config`) mutates the
stored configuration mapping. -/
theorem appConfig_singleton_readonly (env : String → Option String)
    (parseFloat : String → ℚ) (parseInt : String → ℤ) (st : PyState)
    (inst : AppConfigInst) (hslot : st.instanceSlot = some inst)
    (hinit : inst.initialized = true) (ops : List ConfigOp) :
    appConfigNew env parseFloat parseInt st = (inst, st) ∧
    (∀ st0 : PyState,
      (appConfigNew env parseFloat parseInt
            (appConfigNew env parseFloat parseInt st0).2).1 =
          (appConfigNew env parseFloat parseInt st0).1 ∧
      (appConfigNew env parseFloat parseInt
            (appConfigNew env parseFloat parseInt st0).2).2.loadCount =
          (appConfigNew env parseFloat parseInt st0).2.loadCount) ∧
    ∀ self : AppConfigInst, (runConfigOps self ops).config = self.config := by
  refine ⟨?_, ?_, ?_⟩
  · simp [appConfigNew, hslot, hinit]
  · intro st0
    rcases st0 with ⟨slot, n⟩
    rcases slot with _ | i
    · simp [appConfigNew]
    · rcases hi : i.initialized <;> simp [appConfigNew, hi]
  · intro self
    induction ops generalizing self with
    | nil => rfl
    | cons op ops ih =>
        rcases op with k | _ | _ <;>
          simpa [runConfigOps, runConfigOp, get_config_m, is_production_m,
            validate_config_m] using ih _

/-- Witness for C8 at a concrete state: an initialized instance in the slot is
returned as-is, with no reload. -/
theorem appConfig_singleton_readonly_witness :
    (⟨some ⟨[], true⟩, 1⟩ : PyState).instanceSlot = some ⟨[], true⟩ ∧
    appConfigNew (fun _ => none) (fun _ => 0) (fun _ => 0) ⟨some ⟨[], true⟩, 1⟩ =
      (⟨[], true⟩, ⟨some ⟨[], true⟩, 1⟩) :=
  ⟨rfl, (appConfig_singleton_readonly (fun _ => none) (fun _ => 0) (fun _ => 0)
      ⟨some ⟨[], true⟩, 1⟩ ⟨[], true⟩ rfl rfl []).1⟩

/-- C9: `record_trade` is total at its public interface — it returns `True` exactly
when every step succeeds (all four detail fields present, contract build, signing
and send succeed, receipt obtained) and the receipt's `status` field equals 1; on
any raised error it returns `False` instead of propagating. -/
theorem record_trade_true_iff (d : Dict) (st : ChainState) :
    (record_trade d st).1 = true ↔
      (isOkE (dictItem d "symbol") = true ∧ isOkE (dictItem d "amount") = true ∧
       isOkE (dictItem d "price") = true ∧ isOkE (dictItem d "timestamp") = true ∧
       isOkE st.env.buildOutcome = true ∧ isOkE st.env.signOutcome = true ∧
       isOkE st.env.sendOutcome = true ∧ st.env.receiptStatus = .ok 1) := by
  rcases st with ⟨txs, bo, so, sd, rs⟩
  rcases h1 : dictItem d "symbol" with e1 | v1 <;>
  rcases h2 : dictItem d "amount" with e2 | v2 <;>
  rcases h3 : dictItem d "price" with e3 | v3 <;>
  rcases h4 : dictItem d "timestamp" with e4 | v4 <;>
  rcases bo with eb | vb <;> rcases so with es | vs <;>
  rcases sd with ed | vd <;> rcases rs with er | vr <;>
    simp [record_trade, h1, h2, h3, h4, isOkE]

/-- C10: `get_current_price` returns `0.0` whenever the ticker fetch raises, and a
ticker whose last price is genuinely `0` yields the very same return value, so the
two cases are indistinguishable at the public interface. -/
theorem get_current_price_error_zero (e : ExtErr) :
    get_current_price (.error e) = 0 ∧
    get_current_price (.ok ⟨0⟩) = get_current_price (.error e) :=
  ⟨rfl, rfl⟩

/-- C3: for every sentiment score, the spec-modelled RiskGate decision is Buy at or
above the buy threshold, Sell at or below the sell threshold, and Hold strictly in
between (the function is pure: no intent, no side effect). -/
theorem riskGate_trichotomy (buyT sellT s : ℚ) (hlt : sellT < buyT) :
    (buyT ≤ s → riskGateDecide buyT sellT s = .buy) ∧
    (s ≤ sellT → riskGateDecide buyT sellT s = .sell) ∧
    (sellT < s → s < buyT → riskGateDecide buyT sellT s = .hold) := by
  refine ⟨fun hb => ?_, fun hs => ?_, fun h1 h2 => ?_⟩
  · simp [riskGateDecide, hb]
  · have hnb : ¬ buyT ≤ s := not_le.mpr (lt_of_le_of_lt hs hlt)
    simp [riskGateDecide, hnb, hs]
  · have hnb : ¬ buyT ≤ s := not_le.mpr h2
    have hns : ¬ s ≤ sellT := not_le.mpr h1
    simp [riskGateDecide, hnb, hns]

/-- Witness for C3 at thresholds `sellT = 0 < buyT = 1`: score 1 → Buy, score 0 →
Sell, score 1/2 → Hold. -/
theorem riskGate_trichotomy_witness :
    (0 : ℚ) < 1 ∧
    riskGateDecide 1 0 1 = .buy ∧
    riskGateDecide 1 0 0 = .sell ∧
    riskGateDecide 1 0 (1 / 2) = .hold :=
  ⟨by norm_num,
   (riskGate_trichotomy 1 0 1 (by norm_num)).1 (by norm_num),
   (riskGate_trichotomy 1 0 0 (by norm_num)).2.1 (by norm_num),
   (riskGate_trichotomy 1 0 (1 / 2) (by norm_num)).2.2 (by norm_num) (by norm_num)⟩

/-- C5: when the market-data fetch raises or yields an empty frame,
`analyze_sentiment` raises nothing (the scaler and model are never reached) and
returns the neutral score `0.5`; under the spec-modelled thresholds with
`sellThreshold < 0.5 < buyThreshold`, that score is a Hold. -/
theorem analyze_sentiment_neutral_on_failure (e : ExtErr)
    (scalerOutcome : Except ExtErr (List ℚ)) (expNegZ : ℚ) (d : MarketData)
    (hd : d.empty = true) (buyT sellT : ℚ) (h1 : sellT < 1 / 2) (h2 : 1 / 2 < buyT) :
    analyze_sentiment (.error e) scalerOutcome expNegZ = .ok (1 / 2) ∧
    analyze_sentiment (.ok d) scalerOutcome expNegZ = .ok (1 / 2) ∧
    riskGateDecide buyT sellT (1 / 2) = .hold := by
  refine ⟨rfl, ?_, ?_⟩
  · simp [analyze_sentiment, fetch_market_data, hd]
  · unfold riskGateDecide
    rw [if_neg (not_le.mpr h2), if_neg (not_le.mpr h1)]

/-- Witness for C5 at a concrete failed fetch, a concrete empty frame, and
thresholds 1 and 0. -/
theorem analyze_sentiment_neutral_on_failure_witness :
    (⟨true, []⟩ : MarketData).empty = true ∧ (0 : ℚ) < 1 / 2 ∧ (1 : ℚ) / 2 < 1 ∧
    (analyze_sentiment (.error .networkError) (.ok []) 1 = .ok (1 / 2) ∧
     analyze_sentiment (.ok ⟨true, []⟩) (.ok []) 1 = .ok (1 / 2) ∧
     riskGateDecide 1 0 (1 / 2) = .hold) :=
  ⟨rfl, by norm_num, by norm_num,
   analyze_sentiment_neutral_on_failure .networkError (.ok []) 1 ⟨true, []⟩ rfl 1 0
     (by norm_num) (by norm_num)⟩

/-- C6: every score `analyze_sentiment` returns lies in the closed interval
`[0, 1]`: the neutral fallback is `1/2` and the model's sigmoid output layer
produces `1 / (1 + exp (-z))` with `exp (-z) > 0`. -/
theorem analyze_sentiment_score_in_unit_interval (fetchResult : Except ExtErr MarketData)
    (scalerOutcome : Except ExtErr (List ℚ)) (expNegZ : ℚ) (hpos : 0 < expNegZ)
    (q : ℚ) (hq : analyze_sentiment fetchResult scalerOutcome expNegZ = .ok q) :
    0 ≤ q ∧ q ≤ 1 := by
  unfold analyze_sentiment at hq
  by_cases hE : (fetch_market_data fetchResult).empty
  · rw [if_pos hE] at hq
    rw [show q = 1 / 2 from (Except.ok.injEq _ _).mp hq.symm]
    norm_num
  · rw [if_neg hE] at hq
    rcases scalerOutcome with e | v
    · exact absurd hq (by simp)
    · rw [show q = 1 / (1 + expNegZ) from (Except.ok.injEq _ _).mp hq.symm]
      have hden : (0 : ℚ) < 1 + expNegZ := by linarith
      constructor
      · positivity
      · rw [div_le_one hden]
        linarith

/-- Witness for C6 at a failed fetch: the returned score `1/2` is in `[0, 1]`. -/
theorem analyze_sentiment_score_in_unit_interval_witness :
    (0 : ℚ) < 1 ∧
    analyze_sentiment (.error .networkError) (.ok []) 1 = .ok (1 / 2) ∧
    (0 ≤ (1 : ℚ) / 2 ∧ (1 : ℚ) / 2 ≤ 1) :=
  ⟨by norm_num, rfl,
   analyze_sentiment_score_in_unit_interval (.error .networkError) (.ok []) 1
     (by norm_num) (1 / 2) rfl⟩

/-- C1 (counterexample): at concrete failing calls, each of the three operations
returns its default value — `{}` from `get_account_balance` and
`create_market_order`, `False` from `record_trade` — rather than any record of
what happened, refuting the claim that no error is swallowed. -/
theorem external_failures_swallowed_counterexample :
    get_account_balance (.error .networkError) = [] ∧
    (create_market_order "BTC/USDT" "buy" 1 ⟨[], true⟩).1 = [] ∧
    (record_trade (mkTradeDetails "BTC/USDT" 1 50000 0)
        ⟨[], ⟨.error .rpcError, .ok (), .ok (), .ok 1⟩⟩).1 = false :=
  ⟨rfl, rfl, rfl⟩

/-- C1 (amended): every failing external call is swallowed — the exception is
caught and logged and a default value returned (`{}` for `get_account_balance`
and `create_market_order`, `False` for `record_trade`), with no state transition
recorded anywhere. -/
theorem external_failures_swallowed (e : ExtErr) (symbol side : String) (amount : ℚ)
    (orders : List Order) (d : Dict) (txs : List Nat) (w : Web3Env) :
    get_account_balance (.error e) = [] ∧
    create_market_order symbol side amount ⟨orders, true⟩ = ([], ⟨orders, true⟩) ∧
    (record_trade d ⟨txs, { w with buildOutcome := .error e }⟩).1 = false :=
  ⟨rfl, rfl, record_trade_build_error d txs w e⟩

/-- C2 (counterexample): repeating the very same `create_market_order` call yields
two distinct order references (0 then 1) and leaves two orders on the exchange,
and repeating the very same `record_trade` call leaves two distinct transactions
on the ledger — refuting the claimed idempotence of retried submits/records. -/
theorem submit_record_idempotence_counterexample :
    List.lookup "id" (create_market_order "BTC/USDT" "buy" 1 ⟨[], false⟩).1 =
      some (.intVal 0) ∧
    List.lookup "id" (create_market_order "BTC/USDT" "buy" 1
        (create_market_order "BTC/USDT" "buy" 1 ⟨[], false⟩).2).1 =
      some (.intVal 1) ∧
    Val.intVal 0 ≠ Val.intVal 1 ∧
    (create_market_order "BTC/USDT" "buy" 1
        (create_market_order "BTC/USDT" "buy" 1 ⟨[], false⟩).2).2.orders.length = 2 ∧
    (record_trade (mkTradeDetails "BTC/USDT" 1 50000 0)
        (record_trade (mkTradeDetails "BTC/USDT" 1 50000 0) ⟨[], allOkEnv⟩).2).2.txs =
      [0, 1] :=
  ⟨rfl, rfl, by simp, rfl, rfl⟩

/-- C2 (amended): neither `create_market_order` nor `record_trade` takes an
idempotency key; each repeated call with identical arguments submits a fresh
order — the exchange assigns consecutive, distinct order references and keeps
both orders — and sends a fresh ledger transaction, so a retry double-executes
instead of being idempotent. -/
theorem submit_record_not_idempotent (symbol side : String) (amount : ℚ)
    (orders : List Order) (sym2 : String) (amt price : ℚ) (ts : ℤ) (txs : List Nat) :
    List.lookup "id" (create_market_order symbol side amount ⟨orders, false⟩).1 =
      some (.intVal (orders.length : ℤ)) ∧
    List.lookup "id" (create_market_order symbol side amount
        (create_market_order symbol side amount ⟨orders, false⟩).2).1 =
      some (.intVal ((orders.length : ℤ) + 1)) ∧
    Val.intVal (orders.length : ℤ) ≠ Val.intVal ((orders.length : ℤ) + 1) ∧
    (create_market_order symbol side amount
        (create_market_order symbol side amount ⟨orders, false⟩).2).2.orders.length =
      orders.length + 2 ∧
    (record_trade (mkTradeDetails sym2 amt price ts) ⟨txs, allOkEnv⟩).2.txs =
      txs ++ [txs.length] ∧
    (record_trade (mkTradeDetails sym2 amt price ts)
        (record_trade (mkTradeDetails sym2 amt price ts) ⟨txs, allOkEnv⟩).2).2.txs =
      txs ++ [txs.length, txs.length + 1] ∧
    txs.length ≠ txs.length + 1 := by
  have h1 : isOkE (dictItem (mkTradeDetails sym2 amt price ts) "symbol") = true := rfl
  have h2 : isOkE (dictItem (mkTradeDetails sym2 amt price ts) "amount") = true := rfl
  have h3 : isOkE (dictItem (mkTradeDetails sym2 amt price ts) "price") = true := rfl
  have h4 : isOkE (dictItem (mkTradeDetails sym2 amt price ts) "timestamp") = true := rfl
  have hr1 := record_trade_allOk (mkTradeDetails sym2 amt price ts) txs h1 h2 h3 h4
  have hr2 := record_trade_allOk (mkTradeDetails sym2 amt price ts)
    (txs ++ [txs.length]) h1 h2 h3 h4
  have e2 : List.lookup "id" (create_market_order symbol side amount
      (create_market_order symbol side amount ⟨orders, false⟩).2).1 =
      some (.intVal ((orders ++ [(⟨orders.length, symbol, side, amount⟩ : Order)]).length : ℤ)) := rfl
  have e4 : (create_market_order symbol side amount
      (create_market_order symbol side amount ⟨orders, false⟩).2).2.orders =
      (orders ++ [(⟨orders.length, symbol, side, amount⟩ : Order)]) ++
        [(⟨(orders ++ [(⟨orders.length, symbol, side, amount⟩ : Order)]).length,
           symbol, side, amount⟩ : Order)] := rfl
  refine ⟨rfl, ?_, by simp, ?_, ?_, ?_, by simp⟩
  · rw [e2]; simp
  · rw [e4]; simp
  · rw [hr1]
  · rw [hr1, hr2]
    simp

/-- C7 (counterexample): a successful `verify_trade` result contains neither a
`found` flag nor a ledger reference, refuting the claimed verify interface. -/
theorem verify_trade_shape_counterexample :
    List.lookup "found" (verify_trade (.ok ⟨"BTC/USDT", 1, 50000, 1700000000⟩)) = none ∧
    List.lookup "ledgerRef"
      (verify_trade (.ok ⟨"BTC/USDT", 1, 50000, 1700000000⟩)) = none :=
  ⟨rfl, rfl⟩

/-- C7 (amended): `verify_trade` returns a dict holding exactly the record's four
detail fields (`symbol`, `amount`, `price`, `timestamp`) on success — no `found`
flag and no ledger reference — and `{}` on failure; `record_trade` signals
failure only through its boolean return (`False` on a failed step), not through a
typed Transient/Permanent error or a ledger reference. -/
theorem verify_trade_details_only (r : TradeRecord) (e : ExtErr) (d : Dict)
    (txs : List Nat) (w : Web3Env) :
    (verify_trade (.ok r)).map Prod.fst = ["symbol", "amount", "price", "timestamp"] ∧
    List.lookup "found" (verify_trade (.ok r)) = none ∧
    List.lookup "ledgerRef" (verify_trade (.ok r)) = none ∧
    verify_trade (.error e) = [] ∧
    (record_trade d ⟨txs, { w with signOutcome := .error e }⟩).1 = false := by
  refine ⟨rfl, rfl, rfl, rfl, ?_⟩
  rcases k1 : dictItem d "symbol" with e1 | v1 <;>
  rcases k2 : dictItem d "amount" with e2 | v2 <;>
  rcases k3 : dictItem d "price" with e3 | v3 <;>
  rcases k4 : dictItem d "timestamp" with e4 | v4 <;>
  rcases hb : w.buildOutcome with eb | vb <;>
    simp [record_trade, k1, k2, k3, k4, hb]

end AITradeGuard
